import Mathlib

/-!
# Verification of the circuit attribute rewriter (circuit_macro/src/lib.rs)

A shallow embedding of the procedural rewriter in
`src/circuit_macro/src/lib.rs`: the `circuit` attribute parses a scalar
Rust function, rewrites its body into circuit-builder calls
(`replace_expressions` / `modify_body`), and emits a generic wrapper with
a bit-width dispatch table (`generate_macro`).

Rust panics are modelled as `Except.error` with the panic message; the
`quote!`/`parse_quote!` templates the rewriter emits are modelled by
dedicated constructors (`ctxBin`, `ctxNot`, `ctxMux`) standing for the
quoted blocks `{ &context.op(&l, &r) }`, `{ &context.not(&e) }` and the
mux block, respectively.

The circuit-builder engine itself is not part of this crate; where its
behaviour is needed it is modelled from the specification's collaborator
interface (see `binCircuit`, `evalCircuit`).
-/

/-- Binary operator kinds of `syn::BinOp` that `replace_expressions`
matches (lib.rs lines 166-324): six comparisons, five arithmetic
operators and three bitwise operators. -/
inductive BinK where
  | eq | ne | gt | ge | lt | le
  | add | sub | mul | div | rem
  | band | bor | bxor
  deriving DecidableEq

mutual

/-- Rust expressions, mirroring the `syn::Expr` shapes relevant to
`replace_expressions`: literals, path/identifier expressions, binary and
unary operations, `if`/`else` (with the else arm present as an arbitrary
expression, `eif`, or absent, `eifNoElse`), block expressions,
parenthesized expressions, `for` loops, an opaque catch-all `other`, and
the three shapes produced by the rewriter's `parse_quote!` templates:
`ctxBin op l r` for `{ &context.op(&l, &r) }`, `ctxNot e` for
`{ &context.not(&e) }`, and `ctxMux c t f` for the emitted mux block
`{ let if_true = t; let if_false = f; let cond = c; &context.mux(cond, if_true, if_false) }`. -/
inductive Expr where
  | lit (n : Nat)
  | evar (name : String)
  | binary (op : BinK) (l r : Expr)
  | unaryNot (e : Expr)
  | eif (cond : Expr) (thenB : Block) (elseE : Expr)
  | eifNoElse (cond : Expr) (thenB : Block)
  | eblock (b : Block)
  | paren (e : Expr)
  | forLoop (pat : String) (iter : Expr) (body : Block)
  | other (tag : Nat)
  | ctxBin (op : String) (l r : Expr)
  | ctxNot (e : Expr)
  | ctxMux (cond : Expr) (ifTrue ifFalse : Block)

/-- Rust statements as `modify_body` dispatches on them (lib.rs lines
141-152): expression statements (`syn::Stmt::Expr`, with or without a
semicolon), `let` bindings with or without an initializer
(`syn::Stmt::Local`), and an opaque catch-all (`other => other`) for the
remaining statement kinds (items, statement-level macros). -/
inductive Stmt where
  | sexpr (e : Expr) (semi : Bool)
  | slocalInit (name : String) (init : Expr)
  | slocalNone (name : String)
  | sother (tag : Nat)

/-- A Rust block: an ordered sequence of statements. -/
inductive Block where
  | nil
  | cons (s : Stmt) (rest : Block)

end

mutual

/-- Embeds `replace_expressions` (lib.rs lines 164-366).  The six
comparison arms first recurse into both operand subtrees and then build
the builder call on the rewritten operands; the eight arithmetic/bitwise
arms and the unary-not arm build the builder call on the original,
un-rewritten operands.  `if`/`else` is lowered to the mux template:
the then branch is passed through `modify_body` first, then the else arm
must be a plain block (otherwise panic "Expected a block in else
branch") and is passed through `modify_body`, then the condition is
rewritten.  An `if` with no else arm panics ("Expected else branch for
if expression").  Every other expression shape falls through unchanged
(`other => other`). -/
def replace_expressions : Expr → Except String Expr
  | .binary .eq l r => do
      let l ← replace_expressions l
      let r ← replace_expressions r
      pure (.ctxBin "eq" l r)
  | .binary .ne l r => do
      let l ← replace_expressions l
      let r ← replace_expressions r
      pure (.ctxBin "ne" l r)
  | .binary .gt l r => do
      let l ← replace_expressions l
      let r ← replace_expressions r
      pure (.ctxBin "gt" l r)
  | .binary .ge l r => do
      let l ← replace_expressions l
      let r ← replace_expressions r
      pure (.ctxBin "ge" l r)
  | .binary .lt l r => do
      let l ← replace_expressions l
      let r ← replace_expressions r
      pure (.ctxBin "lt" l r)
  | .binary .le l r => do
      let l ← replace_expressions l
      let r ← replace_expressions r
      pure (.ctxBin "le" l r)
  | .binary .add l r => pure (.ctxBin "add" l r)
  | .binary .sub l r => pure (.ctxBin "sub" l r)
  | .binary .mul l r => pure (.ctxBin "mul" l r)
  | .binary .div l r => pure (.ctxBin "div" l r)
  | .binary .rem l r => pure (.ctxBin "rem" l r)
  | .binary .band l r => pure (.ctxBin "and" l r)
  | .binary .bor l r => pure (.ctxBin "or" l r)
  | .binary .bxor l r => pure (.ctxBin "xor" l r)
  | .unaryNot e => pure (.ctxNot e)
  | .eif cond thenB elseE => do
      let thenT ← modify_body thenB
      match elseE with
      | .eblock b => do
          let elseT ← modify_body b
          let condT ← replace_expressions cond
          pure (.ctxMux condT thenT elseT)
      | _ => throw "Expected a block in else branch"
  | .eifNoElse _ _ => throw "Expected else branch for if expression"
  | other => pure other

/-- Embeds the per-statement match inside `modify_body`'s map closure
(lib.rs lines 141-152): expression statements have their expression
rewritten (keeping the semicolon flag), `let` bindings have their
initializer rewritten in place, everything else is returned untouched. -/
def modify_stmt : Stmt → Except String Stmt
  | .sexpr e semi => do
      let e' ← replace_expressions e
      pure (.sexpr e' semi)
  | .slocalInit n e => do
      let e' ← replace_expressions e
      pure (.slocalInit n e')
  | .slocalNone n => pure (.slocalNone n)
  | .sother t => pure (.sother t)

/-- Embeds `modify_body` (lib.rs lines 136-161): maps `modify_stmt` over
the statements of the block, in order. -/
def modify_body : Block → Except String Block
  | .nil => pure .nil
  | .cons s rest => do
      let s' ← modify_stmt s
      let rest' ← modify_body rest
      pure (.cons s' rest')

end

/-! ## Semantics

The direct (host-language) semantics of the source fragment, and the
circuit semantics of the rewritten fragment.  The circuit-builder engine
is an external collaborator of this crate; its behaviour is modelled
from the specification's collaborator interface: nodes carry `w`-bit
values, builder operations compute modulo `2 ^ w`, comparisons produce a
0/1 node, and `mux` selects between two eagerly computed values. -/

/-- Variable environments: parameter and `let` bindings, innermost
first. -/
abbrev Env := List (String × Nat)

/-- Direct host-language semantics of one `syn::BinOp` at width `w`:
wrap-around arithmetic modulo `2 ^ w`, Rust comparison semantics with
`true` encoded as 1 and `false` as 0, and Rust division/remainder, which
panic (`none`) on a zero divisor. -/
def binDirect (w : Nat) (op : BinK) (a b : Nat) : Option Nat :=
  match op with
  | .eq => some (if a = b then 1 else 0)
  | .ne => some (if a = b then 0 else 1)
  | .gt => some (if b < a then 1 else 0)
  | .ge => some (if b ≤ a then 1 else 0)
  | .lt => some (if a < b then 1 else 0)
  | .le => some (if a ≤ b then 1 else 0)
  | .add => some ((a + b) % 2 ^ w)
  | .sub => some ((a + (2 ^ w - b)) % 2 ^ w)
  | .mul => some ((a * b) % 2 ^ w)
  | .div => if b = 0 then none else some (a / b)
  | .rem => if b = 0 then none else some (a % b)
  | .band => some (a &&& b)
  | .bor => some (a ||| b)
  | .bxor => some (a ^^^ b)

mutual

/-- Direct evaluation of a source expression at width `w`: the value the
original, un-rewritten Rust function computes on `w`-bit unsigned
integers.  Shapes that are not value-producing source syntax (`for`
loops, `if` without else in value position, opaque statements, and the
rewriter-output shapes `ctxBin`/`ctxNot`/`ctxMux`) have no value. -/
def evalRust (w : Nat) (env : Env) : Expr → Option Nat
  | .lit n => some (n % 2 ^ w)
  | .evar x => (env.lookup x).map (fun v => v % 2 ^ w)
  | .binary op l r => do
      let a ← evalRust w env l
      let b ← evalRust w env r
      binDirect w op a b
  | .unaryNot e => do
      let a ← evalRust w env e
      some (2 ^ w - 1 - a)
  | .eif c t e => do
      let cv ← evalRust w env c
      if cv ≠ 0 then evalRustBlock w env t else evalRust w env e
  | .eifNoElse _ _ => none
  | .eblock b => evalRustBlock w env b
  | .paren e => evalRust w env e
  | .forLoop _ _ _ => none
  | .other _ => none
  | .ctxBin _ _ _ => none
  | .ctxNot _ => none
  | .ctxMux _ _ _ => none

/-- Direct evaluation of a block: statements run in order, `let`
bindings extend the environment, and the block's value is its trailing
expression statement without a semicolon.  Opaque statements have no
defined value. -/
def evalRustBlock (w : Nat) (env : Env) : Block → Option Nat
  | .nil => none
  | .cons (.sexpr e false) .nil => evalRust w env e
  | .cons (.sexpr e _) rest => do
      let _ ← evalRust w env e
      evalRustBlock w env rest
  | .cons (.slocalInit n e) rest => do
      let v ← evalRust w env e
      evalRustBlock w ((n, v) :: env) rest
  | .cons (.slocalNone _) rest => evalRustBlock w env rest
  | .cons (.sother _) _ => none

end

/-- Modelled from the spec: the circuit-builder collaborator's binary
operations (spec section 6), keyed by the method name the rewriter
emits.  Nodes carry `w`-bit values; `add`/`sub`/`mul` compute modulo
`2 ^ w`; comparisons produce a 0/1 node; `div`/`rem` are total for the
collaborator (zero-divisor behaviour is the collaborator's
responsibility; natural-number division is used, with division by zero
yielding 0).  A method name outside the interface has no meaning. -/
def binCircuit (w : Nat) (op : String) (a b : Nat) : Option Nat :=
  match op with
  | "eq" => some (if a = b then 1 else 0)
  | "ne" => some (if a = b then 0 else 1)
  | "gt" => some (if b < a then 1 else 0)
  | "ge" => some (if b ≤ a then 1 else 0)
  | "lt" => some (if a < b then 1 else 0)
  | "le" => some (if a ≤ b then 1 else 0)
  | "add" => some ((a + b) % 2 ^ w)
  | "sub" => some ((a + (2 ^ w - b)) % 2 ^ w)
  | "mul" => some ((a * b) % 2 ^ w)
  | "div" => some (a / b)
  | "rem" => some (a % b)
  | "and" => some (a &&& b)
  | "or" => some (a ||| b)
  | "xor" => some (a ^^^ b)
  | _ => none

mutual

/-- Modelled from the spec: evaluation of a rewritten expression inside
the emitted `generate` body, against the collaborator interface of spec
section 6.  Identifiers are bound to circuit input nodes carrying the
argument values; builder calls (`ctxBin`, `ctxNot`, `ctxMux`) compute as
`binCircuit` describes, with `ctxMux` evaluating both branch blocks
eagerly before selecting; literals used as builder operands enter as
constant inputs.  A raw host-language operation applied to circuit
nodes (`binary`, `unaryNot`, `eif` surviving the rewrite un-lowered) is
outside the collaborator interface and has no defined circuit value. -/
def evalCircuit (w : Nat) (env : Env) : Expr → Option Nat
  | .lit n => some (n % 2 ^ w)
  | .evar x => (env.lookup x).map (fun v => v % 2 ^ w)
  | .ctxBin op l r => do
      let a ← evalCircuit w env l
      let b ← evalCircuit w env r
      binCircuit w op a b
  | .ctxNot e => do
      let a ← evalCircuit w env e
      some (2 ^ w - 1 - a)
  | .ctxMux c t f => do
      let tv ← evalCircuitBlock w env t
      let fv ← evalCircuitBlock w env f
      let cv ← evalCircuit w env c
      some (if cv ≠ 0 then tv else fv)
  | .paren e => evalCircuit w env e
  | .eblock b => evalCircuitBlock w env b
  | .binary _ _ _ => none
  | .unaryNot _ => none
  | .eif _ _ _ => none
  | .eifNoElse _ _ => none
  | .forLoop _ _ _ => none
  | .other _ => none

/-- Modelled from the spec: block evaluation on the circuit side, same
statement discipline as `evalRustBlock` but with builder-call
semantics for the expressions. -/
def evalCircuitBlock (w : Nat) (env : Env) : Block → Option Nat
  | .nil => none
  | .cons (.sexpr e false) .nil => evalCircuit w env e
  | .cons (.sexpr e _) rest => do
      let _ ← evalCircuit w env e
      evalCircuitBlock w env rest
  | .cons (.slocalInit n e) rest => do
      let v ← evalCircuit w env e
      evalCircuitBlock w ((n, v) :: env) rest
  | .cons (.slocalNone _) rest => evalCircuitBlock w env rest
  | .cons (.sother _) _ => none

end

/-! ## The attribute entry point: signature extraction, dispatch table,
and wrapper assembly (`generate_macro`, lib.rs lines 15-133). -/

/-- Parameter patterns as `syn::Pat`: a simple identifier, or any other
pattern shape (tuple, wildcard, ...), kept opaque. -/
inductive Pat where
  | ident (name : String)
  | wild (tag : Nat)
  deriving DecidableEq

/-- A function argument as `syn::FnArg`: a receiver (`self`) or a typed
pattern `pat : ty`. -/
inductive FnArg where
  | receiver
  | typed (pat : Pat) (ty : String)
  deriving DecidableEq

/-- A return type as `syn::ReturnType`: absent (`Default`, the unit
return) or `-> ty`. -/
inductive RetTy where
  | default
  | typed (ty : String)
  deriving DecidableEq

/-- The parsed input function (`syn::ItemFn`): name, arguments, return
type and body. -/
structure ItemFn where
  name : String
  inputs : List FnArg
  output : RetTy
  block : Block

/-- The return type the emitted wrapper declares: the original scalar
type in execute mode, or the pair `(Circuit, Vec<bool>)` in compile mode
(lib.rs lines 82-86). -/
inductive OutTy where
  | named (ty : String)
  | circuitPair
  deriving DecidableEq

/-- The trailing operation of the emitted `generate` body (lib.rs lines
88-98): compile mode returns the compiled circuit and collected input
bits; execute mode compiles, executes and converts the result back. -/
inductive WrapperOp where
  | compileOp
  | executeOp
  deriving DecidableEq

/-- The pieces of the emitted wrapper that the transformation produces
(the `expanded` quote, lib.rs lines 101-127): the wrapper name, the
element type token from the first parameter, the declared output type,
the mode-selected trailing operation, the parameter names bound to input
nodes, and the transformed body. -/
structure Generated where
  fnName : String
  typeName : String
  outputType : OutTy
  operation : WrapperOp
  paramNames : List String
  body : Block

/-- Embeds the `type_name` extraction (lib.rs lines 21-25): the type of
the first input parameter.  Indexing `inputs[0]` on an empty parameter
list panics ("index out of bounds"); a receiver first argument panics
("Expected typed argument"). -/
def first_param_type : List FnArg → Except String String
  | [] => throw "index out of bounds"
  | .typed _ ty :: _ => pure ty
  | .receiver :: _ => throw "Expected typed argument"

/-- Embeds the `output_type` extraction (lib.rs lines 28-32): the
declared return type, panicking ("Expected typed return type") when the
return type is absent. -/
def output_type_of : RetTy → Except String String
  | .typed ty => pure ty
  | .default => throw "Expected typed return type"

/-- Embeds one step of the `param_names` collection closure (lib.rs
lines 56-66): a typed simple-identifier pattern yields its identifier;
any other typed pattern panics ("Expected identifier pattern"); a
receiver panics ("Expected typed argument"). -/
def param_name : FnArg → Except String String
  | .typed (.ident n) _ => pure n
  | .typed _ _ => throw "Expected identifier pattern"
  | .receiver => throw "Expected typed argument"

/-- Embeds the `param_names` collection (lib.rs lines 54-67):
`inputs.iter().map(...).collect()`, left to right, first panic wins. -/
def param_names_of : List FnArg → Except String (List String)
  | [] => pure []
  | a :: rest => do
      let n ← param_name a
      let ns ← param_names_of rest
      pure (n :: ns)

/-- Embeds the `match_arms` dispatch table (lib.rs lines 70-79): the
emitted wrapper matches the element type's runtime type-name token
against exactly five tokens, selecting the specialization width, and
panics ("Unsupported type") on every other token. -/
def match_arms_width : String → Except String Nat
  | "u8" => pure 8
  | "u16" => pure 16
  | "u32" => pure 32
  | "u64" => pure 64
  | "u128" => pure 128
  | _ => throw "Unsupported type"

/-- Embeds `generate_macro` (lib.rs lines 15-133) in its evaluation
order: extract the first parameter's type, extract the return type,
transform the body with `modify_body`, collect the parameter names, and
assemble the emitted wrapper, with the output type and trailing
operation selected by comparing the mode string against "compile"
(lib.rs lines 82-98; every mode other than "compile" takes the execute
branch).  Each Rust panic on this path is an `Except.error`. -/
def generate_wrapper (mode : String) (fn : ItemFn) : Except String Generated := do
  let tyName ← first_param_type fn.inputs
  let outTy ← output_type_of fn.output
  let transformed ← modify_body fn.block
  let names ← param_names_of fn.inputs
  pure
    { fnName := fn.name
      typeName := tyName
      outputType := if mode = "compile" then .circuitPair else .named outTy
      operation := if mode = "compile" then .compileOp else .executeOp
      paramNames := names
      body := transformed }

/-! ## Specification-side definitions

These transcribe the specification's words, for comparison against the
embedded source; they are not part of the source embedding. -/

/-- From the spec's operator table (claim C5): the builder operation
name each source operator is mapped to. -/
def specOpName : BinK → String
  | .eq => "eq"
  | .ne => "ne"
  | .gt => "gt"
  | .ge => "ge"
  | .lt => "lt"
  | .le => "le"
  | .add => "add"
  | .sub => "sub"
  | .mul => "mul"
  | .div => "div"
  | .rem => "rem"
  | .band => "and"
  | .bor => "or"
  | .bxor => "xor"

/-- From the spec (claim C2): the comparison operators, whose operand
subtrees the rewriter rewrites recursively. -/
def specIsCmp : BinK → Bool
  | .eq | .ne | .gt | .ge | .lt | .le => true
  | _ => false

/-- From the spec (claim C8, amended): the signature conditions under
which extraction succeeds — a nonempty parameter list, every parameter a
typed simple-identifier pattern, and a present return type. -/
def arg_is_typed_ident : FnArg → Bool
  | .typed (.ident _) _ => true
  | _ => false

/-- From the spec (claim C8, amended): decidable signature-validity
predicate. -/
def sig_ok (fn : ItemFn) : Bool :=
  !fn.inputs.isEmpty && fn.inputs.all arg_is_typed_ident
    && (match fn.output with | .typed _ => true | .default => false)

/-- Whether an `Except` computation succeeded (a Rust panic is
`Except.error`). -/
def exceptOk : Except String α → Bool
  | .ok _ => true
  | .error _ => false

/-! ## Concrete example inputs used by the theorems below. -/

/-- A well-formed input function: `fn square(a: u8) -> u8 { a * a }`. -/
def exampleFn : ItemFn :=
  { name := "square"
    inputs := [.typed (.ident "a") "u8"]
    output := .typed "u8"
    block := .cons (.sexpr (.binary .mul (.evar "a") (.evar "a")) false) .nil }

/-- A function whose first parameter is a typed simple identifier and
whose return type is present, but whose second parameter is not an
identifier pattern: `fn f(a: u8, (second, pattern): u8) -> u8 { a }`. -/
def badSecondParamFn : ItemFn :=
  { name := "f"
    inputs := [.typed (.ident "a") "u8", .typed (.wild 0) "u8"]
    output := .typed "u8"
    block := .cons (.sexpr (.evar "a") false) .nil }

/-- A pure-arithmetic body with nested arithmetic: `a + b * c`. -/
def nestedBody : Expr :=
  .binary .add (.evar "a") (.binary .mul (.evar "b") (.evar "c"))

/-- The function `fn f(a: u8, b: u8, c: u8) -> u8 { a + b * c }`. -/
def nestedFn : ItemFn :=
  { name := "f"
    inputs := [.typed (.ident "a") "u8", .typed (.ident "b") "u8",
               .typed (.ident "c") "u8"]
    output := .typed "u8"
    block := .cons (.sexpr nestedBody false) .nil }

/-- The environment binding the inputs a = 1, b = 2, c = 3. -/
def exEnv : Env := [("a", 1), ("b", 2), ("c", 3)]

/-! ## Helper lemmas on the `Except` monad. -/

@[simp] theorem except_pure_eq_ok {α : Type} (a : α) :
    (pure a : Except String α) = Except.ok a := rfl

@[simp] theorem except_throw_eq_error {α : Type} (e : String) :
    (throw e : Except String α) = Except.error e := rfl

@[simp] theorem except_ok_bind {α β : Type} (a : α) (f : α → Except String β) :
    (Except.ok a : Except String α) >>= f = f a := rfl

@[simp] theorem except_error_bind {α β : Type} (e : String) (f : α → Except String β) :
    (Except.error e : Except String α) >>= f = Except.error e := rfl

@[simp] theorem exceptOk_ok {α : Type} (a : α) :
    exceptOk (Except.ok a : Except String α) = true := rfl

@[simp] theorem exceptOk_error {α : Type} (e : String) :
    exceptOk (Except.error e : Except String α) = false := rfl

/-- Claim C2: for every binary expression with a comparison operator
(eq, ne, gt, ge, lt, le) the rewriter first recursively rewrites both
operand subtrees and builds the builder call on the rewritten operands;
for every binary expression with an arithmetic or bitwise operator
(add, sub, mul, div, rem, and, or, xor) it builds the builder call on
the original, un-rewritten operand subtrees. -/
theorem c2_cmp_recurses_arith_does_not :
    ∀ l r l' r' : Expr,
      replace_expressions l = .ok l' → replace_expressions r = .ok r' →
        (replace_expressions (.binary .eq l r) = .ok (.ctxBin "eq" l' r')
          ∧ replace_expressions (.binary .ne l r) = .ok (.ctxBin "ne" l' r')
          ∧ replace_expressions (.binary .gt l r) = .ok (.ctxBin "gt" l' r')
          ∧ replace_expressions (.binary .ge l r) = .ok (.ctxBin "ge" l' r')
          ∧ replace_expressions (.binary .lt l r) = .ok (.ctxBin "lt" l' r')
          ∧ replace_expressions (.binary .le l r) = .ok (.ctxBin "le" l' r'))
        ∧ (replace_expressions (.binary .add l r) = .ok (.ctxBin "add" l r)
          ∧ replace_expressions (.binary .sub l r) = .ok (.ctxBin "sub" l r)
          ∧ replace_expressions (.binary .mul l r) = .ok (.ctxBin "mul" l r)
          ∧ replace_expressions (.binary .div l r) = .ok (.ctxBin "div" l r)
          ∧ replace_expressions (.binary .rem l r) = .ok (.ctxBin "rem" l r)
          ∧ replace_expressions (.binary .band l r) = .ok (.ctxBin "and" l r)
          ∧ replace_expressions (.binary .bor l r) = .ok (.ctxBin "or" l r)
          ∧ replace_expressions (.binary .bxor l r) = .ok (.ctxBin "xor" l r)) := by
  intro l r l' r' hl hr
  refine ⟨⟨?_, ?_, ?_, ?_, ?_, ?_⟩, ?_, ?_, ?_, ?_, ?_, ?_, ?_, ?_⟩ <;>
    simp [replace_expressions, hl, hr]

/-- Claim C2 witness: at the concrete operands `a + b` and `c`, the
comparison `(a + b) == c` has its left operand lowered, while the
addition `(a + b) + c` keeps its left operand un-lowered. -/
theorem c2_witness :
    replace_expressions (.binary .eq (.binary .add (.evar "a") (.evar "b")) (.evar "c"))
        = .ok (.ctxBin "eq" (.ctxBin "add" (.evar "a") (.evar "b")) (.evar "c"))
      ∧ replace_expressions (.binary .add (.binary .add (.evar "a") (.evar "b")) (.evar "c"))
        = .ok (.ctxBin "add" (.binary .add (.evar "a") (.evar "b")) (.evar "c")) := by
  have h := c2_cmp_recurses_arith_does_not
      (.binary .add (.evar "a") (.evar "b")) (.evar "c")
      (.ctxBin "add" (.evar "a") (.evar "b")) (.evar "c") rfl rfl
  exact ⟨h.1.1, h.2.1⟩

/-- Claim C5: the rewriter maps each source operator to exactly one
builder operation per the fixed table (eq→eq, ne→ne, gt→gt, ge→ge,
lt→lt, le→le, add→add, sub→sub, mul→mul, div→div, rem→rem, band→and,
bor→or, bxor→xor, not→not), deterministically and order-preservingly:
the left operand is always the first builder argument and the right
operand the second. -/
theorem c5_operator_table_order_preserving :
    (∀ (op : BinK) (l r l' r' : Expr),
      replace_expressions l = .ok l' → replace_expressions r = .ok r' →
        replace_expressions (.binary op l r)
          = .ok (.ctxBin (specOpName op)
              (if specIsCmp op then l' else l)
              (if specIsCmp op then r' else r)))
    ∧ (∀ e : Expr, replace_expressions (.unaryNot e) = .ok (.ctxNot e)) := by
  constructor
  · intro op l r l' r' hl hr
    cases op <;> simp [replace_expressions, specOpName, specIsCmp, hl, hr]
  · intro e
    simp [replace_expressions]

/-- Claim C5 witness: the table and operand order at concrete inputs:
`x < y` becomes `context.lt(&x, &y)` and `!x` becomes `context.not(&x)`. -/
theorem c5_witness :
    replace_expressions (.binary .lt (.evar "x") (.evar "y"))
        = .ok (.ctxBin "lt" (.evar "x") (.evar "y"))
      ∧ replace_expressions (.unaryNot (.evar "x")) = .ok (.ctxNot (.evar "x")) := by
  have h := c5_operator_table_order_preserving
  have h1 := h.1 .lt (.evar "x") (.evar "y") (.evar "x") (.evar "y") rfl rfl
  exact ⟨by simpa [specOpName, specIsCmp] using h1, h.2 (.evar "x")⟩

/-- Claim C4: every two-armed conditional with a block else arm is
rewritten by rewriting the then block and else block independently via
`modify_body`, rewriting the condition via `replace_expressions`, and
producing the mux template over (rewritten condition, rewritten then
value, rewritten else value); a conditional with no else arm is a fatal
transformation error ("Expected else branch for if expression"). -/
theorem c4_if_else_lowered_to_mux :
    (∀ (cond : Expr) (thenB elseB t' e' : Block) (c' : Expr),
      modify_body thenB = .ok t' → modify_body elseB = .ok e' →
      replace_expressions cond = .ok c' →
        replace_expressions (.eif cond thenB (.eblock elseB)) = .ok (.ctxMux c' t' e'))
    ∧ (∀ (cond : Expr) (thenB : Block),
        replace_expressions (.eifNoElse cond thenB)
          = .error "Expected else branch for if expression") := by
  constructor
  · intro cond thenB elseB t' e' c' ht he hc
    simp [replace_expressions, ht, he, hc]
  · intro cond thenB
    simp [replace_expressions]

/-- Claim C4 witness: `if a > b { a } else { b }` is lowered to the mux
template, and `if a > b { a }` (no else) aborts. -/
theorem c4_witness :
    replace_expressions
        (.eif (.binary .gt (.evar "a") (.evar "b"))
          (.cons (.sexpr (.evar "a") false) .nil)
          (.eblock (.cons (.sexpr (.evar "b") false) .nil)))
      = .ok (.ctxMux (.ctxBin "gt" (.evar "a") (.evar "b"))
          (.cons (.sexpr (.evar "a") false) .nil)
          (.cons (.sexpr (.evar "b") false) .nil))
    ∧ replace_expressions
        (.eifNoElse (.binary .gt (.evar "a") (.evar "b"))
          (.cons (.sexpr (.evar "a") false) .nil))
      = .error "Expected else branch for if expression" := by
  exact ⟨(c4_if_else_lowered_to_mux).1 _ _ _ _ _ _ rfl rfl rfl,
    (c4_if_else_lowered_to_mux).2 _ _⟩

/-- Claim C10: a conditional whose else arm is itself an `if`
expression (an else-if chain, with or without a final else) aborts with
the panic "Expected a block in else branch" instead of being lowered as
nested conditionals. -/
theorem c10_else_if_rejected :
    ∀ (cond c2 : Expr) (thenB t2 : Block) (e2 : Expr) (t' : Block),
      modify_body thenB = .ok t' →
        replace_expressions (.eif cond thenB (.eif c2 t2 e2))
            = .error "Expected a block in else branch"
          ∧ replace_expressions (.eif cond thenB (.eifNoElse c2 t2))
            = .error "Expected a block in else branch" := by
  intro cond c2 thenB t2 e2 t' ht
  constructor <;> simp [replace_expressions, ht]

/-- Claim C10 witness: `if c { } else if d { } else { }` aborts with
the else-branch panic. -/
theorem c10_witness :
    replace_expressions
        (.eif (.evar "c") .nil
          (.eif (.evar "d") .nil (.eblock .nil)))
      = .error "Expected a block in else branch"
    ∧ replace_expressions
        (.eif (.evar "c") .nil (.eifNoElse (.evar "d") .nil))
      = .error "Expected a block in else branch" :=
  c10_else_if_rejected (.evar "c") (.evar "d") .nil .nil (.eblock .nil) .nil rfl

/-- Claim C6: the emitted dispatch matches the element type's runtime
type-name token against exactly the five tokens u8, u16, u32, u64,
u128, selecting the specialization of width 8, 16, 32, 64, 128
respectively; every other token fails fatally with the panic
"Unsupported type", never a silent fallback to some width. -/
theorem c6_dispatch_exact_five_tokens :
    match_arms_width "u8" = .ok 8
      ∧ match_arms_width "u16" = .ok 16
      ∧ match_arms_width "u32" = .ok 32
      ∧ match_arms_width "u64" = .ok 64
      ∧ match_arms_width "u128" = .ok 128
      ∧ ∀ t : String, t ∉ ["u8", "u16", "u32", "u64", "u128"] →
          match_arms_width t = .error "Unsupported type" := by
  refine ⟨rfl, rfl, rfl, rfl, rfl, ?_⟩
  intro t ht
  simp only [List.mem_cons, List.not_mem_nil, or_false, not_or] at ht
  obtain ⟨h1, h2, h3, h4, h5⟩ := ht
  unfold match_arms_width
  split <;> simp_all

/-- Claim C6 witness: the signed token i32 is not one of the five
supported tokens and aborts the dispatch. -/
theorem c6_witness :
    match_arms_width "i32" = .error "Unsupported type" := by
  have h := c6_dispatch_exact_five_tokens
  exact h.2.2.2.2.2 "i32" (by decide)

/-- Claim C9: the rewriter returns every parenthesized expression
unchanged (it falls into the catch-all arm), so operators inside a
parenthesized subexpression are never lowered to builder calls; in the
body `(a + b) & c` the outer bitwise-and becomes a builder call while
the inner parenthesized addition stays ordinary addition. -/
theorem c9_paren_passes_through_unchanged :
    (∀ e : Expr, replace_expressions (.paren e) = .ok (.paren e))
      ∧ ∀ a b c : Expr,
          replace_expressions (.binary .band (.paren (.binary .add a b)) c)
            = .ok (.ctxBin "and" (.paren (.binary .add a b)) c) := by
  constructor
  · intro e
    simp [replace_expressions]
  · intro a b c
    simp [replace_expressions]

/-- Claim C7: `modify_stmt` rewrites expression statements via the
expression rule (keeping the semicolon flag), rewrites the initializer
of a let binding in place, and passes every other statement kind
through completely unmodified; `modify_body` maps this over the block
in order; in particular a `for` loop statement — whatever arithmetic
its body contains — is passed through un-lowered. -/
theorem c7_statement_dispatch :
    (∀ (e e' : Expr) (semi : Bool), replace_expressions e = .ok e' →
        modify_stmt (.sexpr e semi) = .ok (.sexpr e' semi))
      ∧ (∀ (n : String) (e e' : Expr), replace_expressions e = .ok e' →
          modify_stmt (.slocalInit n e) = .ok (.slocalInit n e'))
      ∧ (∀ n : String, modify_stmt (.slocalNone n) = .ok (.slocalNone n))
      ∧ (∀ t : Nat, modify_stmt (.sother t) = .ok (.sother t))
      ∧ (∀ (s s' : Stmt) (rest rest' : Block),
          modify_stmt s = .ok s' → modify_body rest = .ok rest' →
            modify_body (.cons s rest) = .ok (.cons s' rest'))
      ∧ ∀ (p : String) (it : Expr) (body : Block) (semi : Bool),
          modify_stmt (.sexpr (.forLoop p it body) semi)
            = .ok (.sexpr (.forLoop p it body) semi) := by
  refine ⟨?_, ?_, ?_, ?_, ?_, ?_⟩
  · intro e e' semi he
    simp [modify_stmt, he]
  · intro n e e' he
    simp [modify_stmt, he]
  · intro n
    simp [modify_stmt]
  · intro t
    simp [modify_stmt]
  · intro s s' rest rest' hs hr
    simp [modify_body, hs, hr]
  · intro p it body semi
    simp [modify_stmt, replace_expressions]

/-- Claim C7 witness: a block holding the loop
`for i in xs { a + b; }` followed by the expression statement `a + b`
keeps the loop (and the arithmetic inside it) untouched while the
trailing expression statement is lowered. -/
theorem c7_witness :
    modify_body
        (.cons (.sexpr (.forLoop "i" (.evar "xs")
            (.cons (.sexpr (.binary .add (.evar "a") (.evar "b")) true) .nil)) true)
          (.cons (.sexpr (.binary .add (.evar "a") (.evar "b")) false) .nil))
      = .ok (.cons (.sexpr (.forLoop "i" (.evar "xs")
            (.cons (.sexpr (.binary .add (.evar "a") (.evar "b")) true) .nil)) true)
          (.cons (.sexpr (.ctxBin "add" (.evar "a") (.evar "b")) false) .nil)) := by
  have h := c7_statement_dispatch
  exact h.2.2.2.2.1 _ _ _ _
    (h.2.2.2.2.2 "i" (.evar "xs")
      (.cons (.sexpr (.binary .add (.evar "a") (.evar "b")) true) .nil) true)
    (h.2.2.2.2.1 _ _ _ _ (h.1 _ _ false rfl) rfl)

/-- Claim C3 counterexample: the claim says every mode value outside
the set (compile, execute) is a fatal configuration error emitting no
wrapper; but the mode is never validated — at mode "banana" the
transformation succeeds and emits the execute-shaped wrapper. -/
theorem c3_counterexample :
    generate_wrapper "banana" exampleFn
      = .ok { fnName := "square", typeName := "u8", outputType := .named "u8",
              operation := .executeOp, paramNames := ["a"],
              body := .cons (.sexpr (.ctxBin "mul" (.evar "a") (.evar "a")) false) .nil } := by
  rfl

/-- Claim C3 (amended): the mode value is not validated; "compile"
selects the compile wrapper, and every other mode value — including
values outside the set (compile, execute) — selects the execute
wrapper, with no configuration error. -/
theorem c3_amended_non_compile_is_execute :
    ∀ (mode : String) (fn : ItemFn), mode ≠ "compile" →
      generate_wrapper mode fn = generate_wrapper "execute" fn := by
  intro mode fn h
  unfold generate_wrapper
  simp [h]

/-- Claim C3 amended witness: mode "banana" produces exactly the
execute-mode wrapper for the example function. -/
theorem c3_amended_witness :
    generate_wrapper "banana" exampleFn = generate_wrapper "execute" exampleFn :=
  c3_amended_non_compile_is_execute "banana" exampleFn (by decide)

/-- Success of the `param_names` collection is exactly the condition
that every argument is a typed simple-identifier pattern. -/
theorem param_names_of_ok (l : List FnArg) :
    exceptOk (param_names_of l) = l.all arg_is_typed_ident := by
  induction l with
  | nil => rfl
  | cons a rest ih =>
    cases a with
    | receiver =>
      simp [param_names_of, param_name, arg_is_typed_ident]
    | typed pat ty =>
      cases pat with
      | ident n =>
        simp only [param_names_of, param_name, except_pure_eq_ok, except_ok_bind,
          List.all_cons, arg_is_typed_ident, Bool.true_and, ← ih]
        cases h : param_names_of rest <;> simp [h]
      | wild t =>
        simp [param_names_of, param_name, arg_is_typed_ident]

/-- Claim C8 counterexample: the claim says extraction succeeds
whenever the parameter list is nonempty, the first parameter is a typed
simple-identifier pattern, and the return type is present; but for a
function meeting all three conditions whose second parameter is not an
identifier pattern, the transformation still aborts (panic "Expected
identifier pattern"). -/
theorem c8_counterexample :
    badSecondParamFn.inputs ≠ []
      ∧ first_param_type badSecondParamFn.inputs = .ok "u8"
      ∧ badSecondParamFn.output = .typed "u8"
      ∧ generate_wrapper "execute" badSecondParamFn
          = .error "Expected identifier pattern" := by
  refine ⟨by simp [badSecondParamFn], rfl, rfl, rfl⟩

/-- Claim C8 (amended): the transformation fails fatally, with no
generated output, whenever the parameter list is empty, ANY parameter
(not only the first) is not a typed simple-identifier pattern, or the
return type is absent; when none of these hold it succeeds exactly when
body rewriting succeeds, with no other effect: success equals signature
validity combined with body-rewrite success. -/
theorem c8_amended_success_iff :
    ∀ (mode : String) (fn : ItemFn),
      exceptOk (generate_wrapper mode fn)
        = (sig_ok fn && exceptOk (modify_body fn.block)) := by
  intro mode fn
  obtain ⟨nm, inputs, output, block⟩ := fn
  cases inputs with
  | nil =>
    simp [generate_wrapper, sig_ok, first_param_type]
  | cons a rest =>
    cases a with
    | receiver =>
      simp [generate_wrapper, sig_ok, first_param_type, arg_is_typed_ident]
    | typed pat ty =>
      cases output with
      | default =>
        simp [generate_wrapper, sig_ok, first_param_type, output_type_of]
      | typed oty =>
        cases hmb : modify_body block with
        | error e =>
          simp [generate_wrapper, sig_ok, first_param_type, output_type_of, hmb]
        | ok b' =>
          cases hpn : param_names_of (FnArg.typed pat ty :: rest) with
          | error e =>
            have hall := param_names_of_ok (FnArg.typed pat ty :: rest)
            rw [hpn] at hall
            simp [generate_wrapper, sig_ok, first_param_type, output_type_of,
              hmb, hpn, ← hall]
          | ok ns =>
            have hall := param_names_of_ok (FnArg.typed pat ty :: rest)
            rw [hpn] at hall
            simp [generate_wrapper, sig_ok, first_param_type, output_type_of,
              hmb, hpn, ← hall]

/-- Claim C1: the spec's execute-mode equality ("for all supported
widths and all representable inputs, the Execute wrapper of a
pure-arithmetic function equals the direct evaluation modulo 2 ^ w")
fails on the code at the pure-arithmetic body `a + b * c`: the
arithmetic arms of `replace_expressions` do not rewrite their operand
subtrees, so the emitted wrapper applies the raw host multiplication to
circuit nodes — an operation outside the collaborator interface — and
cannot produce the direct value.  At width 8 with a = 1, b = 2, c = 3
the original body evaluates to 7, while the transformed body has no
circuit value; a depth-one body `a + b` by contrast agrees with direct
evaluation, isolating the missing recursion as the defect. -/
theorem c1_nested_arithmetic_breaks_execute_equality :
    generate_wrapper "execute" nestedFn
        = .ok { fnName := "f", typeName := "u8", outputType := .named "u8",
                operation := .executeOp, paramNames := ["a", "b", "c"],
                body := .cons (.sexpr (.ctxBin "add" (.evar "a")
                  (.binary .mul (.evar "b") (.evar "c"))) false) .nil }
      ∧ evalRustBlock 8 exEnv nestedFn.block = some 7
      ∧ evalCircuitBlock 8 exEnv
          (.cons (.sexpr (.ctxBin "add" (.evar "a")
            (.binary .mul (.evar "b") (.evar "c"))) false) .nil) = none
      ∧ replace_expressions (.binary .add (.evar "a") (.evar "b"))
          = .ok (.ctxBin "add" (.evar "a") (.evar "b"))
      ∧ evalCircuit 8 exEnv (.ctxBin "add" (.evar "a") (.evar "b"))
          = evalRust 8 exEnv (.binary .add (.evar "a") (.evar "b")) := by
  refine ⟨rfl, rfl, rfl, rfl, rfl⟩
